import Mathlib

/-!
Verification development for the step/timer/navigation orchestration core of
the test-procedure application.

The Lean definitions below are a shallow embedding of the Python sources:

* `src/models/enums.py`            → `TestStatus`, `InputType`, `TimerStatus`, `NavigationMode`
* `src/config.py`                  → `UserRole`, `TIMER_WARNING_THRESHOLD`, `TIMER_CRITICAL_THRESHOLD`
* `src/managers/navigation_manager.py` → `can_navigate_to`, `determine_navigation_mode`, `record_navigation`
* `src/managers/timer_manager.py`  → `TimerManagerState`, `start_timer`, `stop_timer`, `pause_timer`, …
* `src/managers/result_manager.py` → `save_result`, `_determine_status`, `validate_result`
* `src/managers/test_manager.py`   → `TestManagerState`, `navigate_to_step`
* `src/models/test_step.py`        → `TestStep`, `TestStep.to_dict`, `TestStep.from_dict`
* `src/models/test_session.py`     → `TestSession`, `TestSession.to_dict`, `TestSession.from_dict`

Modelling conventions, applied uniformly:

* wall-clock instants (Python `time.time()` / `datetime`) are integer seconds,
  passed explicitly as a `now : Int` argument to every operation that reads the
  clock; `int(time.time() - start)` is then exact integer arithmetic;
* Python `Optional[T]` is `Option T`; a Python value that may be `None`, a
  number, or a string (`result_value: Any`) is the `PyValue` union, with Python
  truthiness embedded as `PyValue.truthy`;
* Python dicts with fixed key sets (the `to_dict` serialisation shapes) are
  Lean structures holding exactly the keys the source emits;
* Qt signal emissions are returned as an explicit event list instead of being
  sent to subscribers; the QTimer tick loop itself (UI wiring) is not part of
  any claim and is not modelled.
-/

/-- TestStatus from `src/models/enums.py`: lifecycle status of a test step. -/
inductive TestStatus where
  | NOT_STARTED
  | IN_PROGRESS
  | PASSED
  | FAILED
  | SKIPPED
deriving DecidableEq, Repr

/-- String value of each `TestStatus` member (`TestStatus.value` in Python). -/
def TestStatus.value : TestStatus → String
  | .NOT_STARTED => "not_started"
  | .IN_PROGRESS => "in_progress"
  | .PASSED => "passed"
  | .FAILED => "failed"
  | .SKIPPED => "skipped"

/-- Inverse of `TestStatus.value`: the Python enum constructor `TestStatus(v)`,
which raises (here: `none`) on an unrecognised string. -/
def TestStatus.ofValue : String → Option TestStatus
  | "not_started" => some .NOT_STARTED
  | "in_progress" => some .IN_PROGRESS
  | "passed" => some .PASSED
  | "failed" => some .FAILED
  | "skipped" => some .SKIPPED
  | _ => none

/-- InputType from `src/models/enums.py`: input requirement of a step. -/
inductive InputType where
  | NONE
  | NUMBER
  | PASS_FAIL
  | COMMENT
deriving DecidableEq, Repr

/-- String value of each `InputType` member. -/
def InputType.value : InputType → String
  | .NONE => "none"
  | .NUMBER => "number"
  | .PASS_FAIL => "pass_fail"
  | .COMMENT => "comment"

/-- Inverse of `InputType.value` (the Python constructor `InputType(v)`). -/
def InputType.ofValue : String → Option InputType
  | "none" => some .NONE
  | "number" => some .NUMBER
  | "pass_fail" => some .PASS_FAIL
  | "comment" => some .COMMENT
  | _ => none

/-- TimerStatus from `src/models/enums.py`: severity tier of a running timer. -/
inductive TimerStatus where
  | NORMAL
  | WARNING
  | CRITICAL
  | OVERTIME
deriving DecidableEq, Repr

/-- NavigationMode from `src/models/enums.py`. -/
inductive NavigationMode where
  | NORMAL
  | VIEW_ONLY
  | EDIT
  | RESUME
deriving DecidableEq, Repr

/-- String value of each `NavigationMode` member. -/
def NavigationMode.value : NavigationMode → String
  | .NORMAL => "normal"
  | .VIEW_ONLY => "view_only"
  | .EDIT => "edit"
  | .RESUME => "resume"

/-- Timer threshold from `src/config.py`: `TIMER_WARNING_THRESHOLD = 20`.
Python compares it against a float percentage, so it is embedded in `ℚ`. -/
def TIMER_WARNING_THRESHOLD : ℚ := 20

/-- Timer threshold from `src/config.py`: `TIMER_CRITICAL_THRESHOLD = 10`. -/
def TIMER_CRITICAL_THRESHOLD : ℚ := 10

namespace UserRole

/-- Role identifier `UserRole.ADMIN` from `src/config.py`. -/
def ADMIN : String := "admin"

/-- Role identifier `UserRole.OPERATOR` from `src/config.py`. -/
def OPERATOR : String := "operator"

/-- Role identifier `UserRole.DEVELOPER` from `src/config.py`. -/
def DEVELOPER : String := "developer"

/-- `UserRole.BACKWARD_NAV_ROLES` from `src/config.py` (line 323):
the roles declared able to navigate backward. -/
def BACKWARD_NAV_ROLES : List String := [ADMIN, DEVELOPER]

/-- `UserRole.can_navigate_back` from `src/config.py` (lines 343–346):
`role in cls.BACKWARD_NAV_ROLES`. -/
def can_navigate_back (role : String) : Bool :=
  BACKWARD_NAV_ROLES.contains role

end UserRole

/-- `NavigationManager.can_navigate_to` from
`src/managers/navigation_manager.py` (lines 39–81).  Returns
`(allowed, reason)`.  `user_role` is `Optional[str]` in Python (default
`None`), so it is an `Option String` here; the Python comparison
`user_role == config.UserRole.ADMIN` is `user_role = some UserRole.ADMIN`.
The Python signature also takes `steps_data`, which the body never reads;
that dead parameter is omitted. -/
def can_navigate_to (current_index target_index total_steps : Int)
    (user_role : Option String) : Bool × String :=
  if target_index < 0 ∨ target_index ≥ total_steps then
    (false, "Geçersiz adım numarası")
  else if target_index = current_index then
    (false, "Zaten bu adımdasınız")
  else if target_index < current_index then
    if user_role = some UserRole.ADMIN then (true, "")
    else (false, "Geri gitme yetkisi yok. Sadece yönetici geri gidebilir.")
  else
    (true, "")

/-- `NavigationManager.determine_navigation_mode` from
`src/managers/navigation_manager.py` (lines 83–109). -/
def determine_navigation_mode (current_index target_index : Int)
    (target_step_status : TestStatus) : NavigationMode :=
  if target_index < current_index then
    if target_step_status = TestStatus.PASSED ∨ target_step_status = TestStatus.FAILED then
      NavigationMode.VIEW_ONLY
    else
      NavigationMode.NORMAL
  else if target_index > current_index then
    NavigationMode.NORMAL
  else
    NavigationMode.VIEW_ONLY

/-- One entry of `NavigationManager.navigation_history`: the dict
`\x7b'from': …, 'to': …, 'timestamp': …\x7d` appended by `record_navigation`
(`src/managers/navigation_manager.py` lines 111–127).  `src`/`dst` stand for
the Python keys `'from'`/`'to'`. -/
structure NavEntry where
  src : Int
  dst : Int
  timestamp : Int
deriving DecidableEq, Repr

/-- `NavigationManager.record_navigation` (lines 111–127): appends an entry to
the history list. -/
def record_navigation (history : List NavEntry) (from_index to_index now : Int) :
    List NavEntry :=
  history ++ [⟨from_index, to_index, now⟩]

/-- C1: for every backward navigation request with targetIndex in range and
targetIndex < currentIndex, a role carrying the backward-navigation capability
(`can_navigate_back`, true for both admin and developer) is claimed to get
`allowed = true`.  The code contradicts its own capability table:
`can_navigate_to` hardcodes `user_role == UserRole.ADMIN`, so the developer
role — for which `config.UserRole.can_navigate_back` returns `True` and which
`config.py` documents as having "All admin rights" — is rejected.  This
theorem evaluates the code at the failing input (current = 2, target = 1,
total = 3, role = developer). -/
theorem C1_developer_backward_rejected_despite_capability :
    UserRole.can_navigate_back UserRole.DEVELOPER = true ∧
    can_navigate_to 2 1 3 (some UserRole.DEVELOPER) =
      (false, "Geri gitme yetkisi yok. Sadece yönetici geri gidebilir.") ∧
    can_navigate_to 2 1 3 (some UserRole.ADMIN) = (true, "") := by
  refine ⟨by decide, ?_, ?_⟩ <;> simp [can_navigate_to, UserRole.DEVELOPER, UserRole.ADMIN]

/-- One value of the `TimerManager.step_timers` dict
(`src/managers/timer_manager.py` line 36): the per-step dict
with keys `start_time`, `elapsed`, `paused`, `limit`. -/
structure TimerRec where
  start_time : Int
  elapsed : Int
  paused : Bool
  limit : Int
deriving DecidableEq, Repr

/-- State of `TimerManager` (`src/managers/timer_manager.py` lines 32–46):
`step_timers` (a dict `step_index → TimerRec`, embedded as an association
list with unique keys) and `active_step_index`.  The QTimer tick loop is UI
wiring and carries no state of its own beyond these fields. -/
structure TimerManagerState where
  step_timers : List (Int × TimerRec)
  active_step_index : Option Int
deriving DecidableEq, Repr

/-- Fresh `TimerManager` state (constructor, lines 32–46). -/
def initTimerManager : TimerManagerState := ⟨[], none⟩

/-- Dict lookup `step_timers[i]` / `i in step_timers`. -/
def lookupTimer : List (Int × TimerRec) → Int → Option TimerRec
  | [], _ => none
  | (j, r) :: rest, i => if j = i then some r else lookupTimer rest i

/-- Dict update `step_timers[i] = f(step_timers[i])` (in-place mutation of the
entry's fields in Python). -/
def updateTimer (l : List (Int × TimerRec)) (i : Int) (f : TimerRec → TimerRec) :
    List (Int × TimerRec) :=
  l.map fun p => if p.1 = i then (p.1, f p.2) else p

/-- `TimerManager.start_timer` (lines 48–78): create a fresh record for a new
index, or resume (unpause, re-stamp `start_time`, refresh `limit`) an existing
one; either way the index becomes the active one.  Starting the QTimer update
loop (lines 75–76) is UI wiring and not modelled. -/
def start_timer (s : TimerManagerState) (step_index time_limit now : Int) :
    TimerManagerState :=
  match lookupTimer s.step_timers step_index with
  | none =>
      { s with
        step_timers := s.step_timers ++ [(step_index, ⟨now, 0, false, time_limit⟩)]
        active_step_index := some step_index }
  | some _ =>
      { s with
        step_timers := updateTimer s.step_timers step_index fun r =>
          { r with start_time := now, paused := false, limit := time_limit }
        active_step_index := some step_index }

/-- `TimerManager.stop_timer` (lines 80–109): returns the new state and the
frozen total elapsed seconds.  An unknown index returns 0; a running record
accumulates `int(now - start_time)` and is marked paused; the active index is
cleared when it was the stopped one. -/
def stop_timer (s : TimerManagerState) (step_index now : Int) :
    TimerManagerState × Int :=
  match lookupTimer s.step_timers step_index with
  | none => (s, 0)
  | some r =>
      let r' := if ¬r.paused then
          { r with elapsed := r.elapsed + (now - r.start_time), paused := true }
        else r
      let active' := if s.active_step_index = some step_index then none
        else s.active_step_index
      ({ step_timers := updateTimer s.step_timers step_index fun _ => r'
         active_step_index := active' }, r'.elapsed)

/-- `TimerManager.pause_timer` (lines 111–128): accumulate and mark paused when
running; no effect otherwise (and no effect on the active index). -/
def pause_timer (s : TimerManagerState) (step_index now : Int) :
    TimerManagerState :=
  match lookupTimer s.step_timers step_index with
  | none => s
  | some r =>
      if ¬r.paused then
        { s with step_timers := updateTimer s.step_timers step_index fun _ =>
            { r with elapsed := r.elapsed + (now - r.start_time), paused := true } }
      else s

/-- `TimerManager.get_elapsed_time` (lines 130–149). -/
def get_elapsed_time (s : TimerManagerState) (step_index now : Int) : Int :=
  match lookupTimer s.step_timers step_index with
  | none => 0
  | some r => if r.paused then r.elapsed else r.elapsed + (now - r.start_time)

/-- `TimerManager.get_remaining_time` (lines 151–167). -/
def get_remaining_time (s : TimerManagerState) (step_index now : Int) : Int :=
  match lookupTimer s.step_timers step_index with
  | none => 0
  | some r => r.limit - get_elapsed_time s step_index now

/-- Severity computation of `TimerManager.get_timer_status`
(`src/managers/timer_manager.py` lines 186–196), as a function of the
remaining time and the stored limit: OVERTIME below zero, otherwise compare
`remaining / limit * 100` (float in Python, `ℚ` here) against the config
thresholds. -/
def get_timer_status_calc (remaining limit : Int) : TimerStatus :=
  if remaining < 0 then TimerStatus.OVERTIME
  else
    let percentage : ℚ := if 0 < limit then (remaining : ℚ) / (limit : ℚ) * 100 else 100
    if percentage > TIMER_WARNING_THRESHOLD then TimerStatus.NORMAL
    else if percentage > TIMER_CRITICAL_THRESHOLD then TimerStatus.WARNING
    else TimerStatus.CRITICAL

/-- `TimerManager.get_timer_status` (lines 169–196): NORMAL for an unknown
index, otherwise the severity computation on this step's remaining time and
limit. -/
def get_timer_status (s : TimerManagerState) (step_index now : Int) : TimerStatus :=
  match lookupTimer s.step_timers step_index with
  | none => TimerStatus.NORMAL
  | some r => get_timer_status_calc (get_remaining_time s step_index now) r.limit

/-- C5: severity tiers of `severityTier(remaining, budget)` for a positive
budget: NORMAL strictly above 20 % of budget, WARNING in (10 %, 20 %],
CRITICAL in [0, 10 %], OVERTIME below zero — each boundary belongs to the
lower, more severe tier (exactly 20 % is WARNING, exactly 10 % is CRITICAL). -/
theorem C5_severity_tier_boundaries (r b : Int) (hb : 0 < b) :
    (get_timer_status_calc r b = TimerStatus.OVERTIME ↔ r < 0) ∧
    (get_timer_status_calc r b = TimerStatus.NORMAL ↔ (20 : ℚ) / 100 * b < r) ∧
    (get_timer_status_calc r b = TimerStatus.WARNING ↔
      ((10 : ℚ) / 100 * b < r ∧ (r : ℚ) ≤ 20 / 100 * b)) ∧
    (get_timer_status_calc r b = TimerStatus.CRITICAL ↔
      (0 ≤ r ∧ (r : ℚ) ≤ 10 / 100 * b)) := by
  have hbq : (0 : ℚ) < (b : ℚ) := by exact_mod_cast hb
  have key : ∀ c : ℚ, (c < (r : ℚ) / (b : ℚ) * 100) ↔ (c / 100 * b < r) := by
    intro c
    rw [div_mul_eq_mul_div, lt_div_iff₀ hbq]
    constructor <;> intro h <;> nlinarith
  unfold get_timer_status_calc
  simp only [TIMER_WARNING_THRESHOLD, TIMER_CRITICAL_THRESHOLD, gt_iff_lt, if_pos hb]
  split_ifs with hr h20 h10
  · have hrq : (r : ℚ) < 0 := by exact_mod_cast hr
    refine ⟨by simp [hr], ?_, ?_, ?_⟩
    · exact iff_of_false (by decide) (by nlinarith)
    · exact iff_of_false (by decide) (by intro h; nlinarith [h.1])
    · exact iff_of_false (by decide) (by intro h; exact absurd h.1 (by omega))
  · rw [key] at h20
    push_neg at hr
    refine ⟨iff_of_false (by decide) (by omega), iff_of_true rfl h20, ?_, ?_⟩
    · exact iff_of_false (by decide) (by intro h; nlinarith [h.2])
    · exact iff_of_false (by decide) (by intro h; nlinarith [h.2])
  · rw [key] at h10
    rw [key] at h20
    push_neg at hr h20
    have h20' : (r : ℚ) ≤ 20 / 100 * b := by nlinarith
    refine ⟨iff_of_false (by decide) (by omega),
      iff_of_false (by decide) (by nlinarith), iff_of_true rfl ⟨h10, h20'⟩, ?_⟩
    exact iff_of_false (by decide) (by intro h; nlinarith [h.2])
  · rw [key] at h10
    rw [key] at h20
    push_neg at hr h10 h20
    have h10' : (r : ℚ) ≤ 10 / 100 * b := by nlinarith
    exact ⟨iff_of_false (by decide) (by omega),
      iff_of_false (by decide) (by nlinarith),
      iff_of_false (by decide) (by intro h; nlinarith [h.1]),
      iff_of_true rfl ⟨hr, h10'⟩⟩

/-- C5 witness: concrete budget 50 with remaining 10 (exactly 20 %) is
WARNING. -/
theorem C5_severity_tier_boundaries_witness :
    (0 : Int) < 50 ∧
    (get_timer_status_calc 10 50 = TimerStatus.WARNING ↔
      ((10 : ℚ) / 100 * 50 < 10 ∧ (10 : ℚ) ≤ 20 / 100 * 50)) :=
  ⟨by decide, (C5_severity_tier_boundaries 10 50 (by decide)).2.2.1⟩

/-- Unfolding of `updateTimer` on a cons cell. -/
lemma updateTimer_cons (j : Int) (r : TimerRec) (rest : List (Int × TimerRec))
    (i : Int) (f : TimerRec → TimerRec) :
    updateTimer ((j, r) :: rest) i f =
      (if j = i then (j, f r) else (j, r)) :: updateTimer rest i f := by
  by_cases h : j = i <;> simp [updateTimer, h]

/-- Looking up the updated key returns the transformed record. -/
lemma lookupTimer_updateTimer_self (l : List (Int × TimerRec)) (i : Int)
    (f : TimerRec → TimerRec) :
    lookupTimer (updateTimer l i f) i = (lookupTimer l i).map f := by
  induction l with
  | nil => rfl
  | cons p rest ih =>
    obtain ⟨j, r⟩ := p
    rw [updateTimer_cons]
    by_cases h : j = i
    · rw [if_pos h]
      subst h
      simp [lookupTimer]
    · rw [if_neg h]
      simp [lookupTimer, h, ih]

/-- Looking up a different key is unaffected by an update. -/
lemma lookupTimer_updateTimer_ne (l : List (Int × TimerRec)) (i k : Int)
    (f : TimerRec → TimerRec) (hki : k ≠ i) :
    lookupTimer (updateTimer l i f) k = lookupTimer l k := by
  induction l with
  | nil => rfl
  | cons p rest ih =>
    obtain ⟨j, r⟩ := p
    rw [updateTimer_cons]
    by_cases h : j = i
    · subst h
      rw [if_pos rfl]
      simp only [lookupTimer]
      rw [if_neg (Ne.symm hki), if_neg (Ne.symm hki)]
      exact ih
    · rw [if_neg h]
      simp only [lookupTimer]
      by_cases hjk : j = k
      · rw [if_pos hjk, if_pos hjk]
      · rw [if_neg hjk, if_neg hjk]
        exact ih

/-- C8: `stop` is idempotent — a second consecutive `stop(index)` call, at any
later instant, returns exactly the elapsed value frozen by the first call and
accumulates nothing further; and `stop` on an index that was never started
returns 0. -/
theorem C8_stop_timer_idempotent (s : TimerManagerState) (i t1 t2 t3 : Int) :
    (stop_timer (stop_timer s i t1).1 i t2).2 = (stop_timer s i t1).2 ∧
    (lookupTimer s.step_timers i = none → (stop_timer s i t3).2 = 0) := by
  constructor
  · cases h : lookupTimer s.step_timers i with
    | none => simp [stop_timer, h]
    | some r =>
      simp only [stop_timer, h]
      have h2 : lookupTimer
          (updateTimer s.step_timers i fun _ =>
            if ¬r.paused then
              { r with elapsed := r.elapsed + (t1 - r.start_time), paused := true }
            else r) i =
          some (if ¬r.paused then
              { r with elapsed := r.elapsed + (t1 - r.start_time), paused := true }
            else r) := by
        rw [lookupTimer_updateTimer_self, h, Option.map_some']
      by_cases hp : r.paused <;> simp [hp] at h2 ⊢ <;> simp [stop_timer, h2, hp]
  · intro h
    simp [stop_timer, h]

/-- Sample timer state with step 0 started at instant 0 (budget 10). -/
def sampleTimerSt : TimerManagerState := start_timer initTimerManager 0 10 0

/-- C8 witness: on the concrete started state, two consecutive stops agree,
and stopping the never-started fresh engine returns 0. -/
theorem C8_stop_timer_idempotent_witness :
    (stop_timer (stop_timer sampleTimerSt 0 1).1 0 2).2 =
      (stop_timer sampleTimerSt 0 1).2 ∧
    (stop_timer initTimerManager 0 3).2 = 0 :=
  ⟨(C8_stop_timer_idempotent sampleTimerSt 0 1 2 3).1,
   (C8_stop_timer_idempotent initTimerManager 0 1 2 3).2 rfl⟩

/-- Calls into the Timer Engine, for reasoning about call sequences:
`start_timer`, `stop_timer` (return value discarded), `pause_timer`. -/
inductive TimerOp where
  | start (step_index time_limit now : Int)
  | stop (step_index now : Int)
  | pause (step_index now : Int)
deriving DecidableEq, Repr

/-- Effect of one Timer Engine call on the engine state. -/
def applyTimerOp (s : TimerManagerState) : TimerOp → TimerManagerState
  | .start i limit t => start_timer s i limit t
  | .stop i t => (stop_timer s i t).1
  | .pause i t => pause_timer s i t

/-- Effect of a sequence of Timer Engine calls. -/
def runTimerOps (s : TimerManagerState) (ops : List TimerOp) : TimerManagerState :=
  ops.foldl applyTimerOp s

/-- Number of entries of the engine's timer table that are running
(`paused = False`). -/
def runningCount (s : TimerManagerState) : Nat :=
  s.step_timers.countP fun p => !p.2.paused

/-- Explicit hand-off discipline on a call sequence: every `start(i)` is
issued only when every timer entry other than `i` is paused (callers stop the
running timer explicitly first, as §4.1 of the spec requires of callers). -/
def handoffDisciplined : TimerManagerState → List TimerOp → Bool
  | _, [] => true
  | s, op :: rest =>
    (match op with
     | .start i _ _ => s.step_timers.all fun p => p.1 == i || p.2.paused
     | _ => true) && handoffDisciplined (applyTimerOp s op) rest

/-- Keys of the timer table are unchanged by an update. -/
lemma keys_updateTimer (l : List (Int × TimerRec)) (i : Int)
    (f : TimerRec → TimerRec) :
    (updateTimer l i f).map Prod.fst = l.map Prod.fst := by
  induction l with
  | nil => rfl
  | cons p rest ih =>
    obtain ⟨j, r⟩ := p
    rw [updateTimer_cons]
    by_cases h : j = i
    · rw [if_pos h]
      simp [ih]
    · rw [if_neg h]
      simp [ih]

/-- Lookup fails exactly when the key is absent from the table. -/
lemma lookupTimer_eq_none_iff (l : List (Int × TimerRec)) (i : Int) :
    lookupTimer l i = none ↔ i ∉ l.map Prod.fst := by
  induction l with
  | nil => simp [lookupTimer]
  | cons p rest ih =>
    obtain ⟨j, r⟩ := p
    simp only [lookupTimer, List.map_cons, List.mem_cons]
    by_cases h : j = i
    · subst h
      simp
    · rw [if_neg h]
      constructor
      · intro hnone hmem
        rcases hmem with hij | hmem
        · exact h hij.symm
        · exact (ih.mp hnone) hmem
      · intro hnm
        exact ih.mpr fun hmem => hnm (Or.inr hmem)

/-- Updating an absent key is a no-op. -/
lemma updateTimer_not_mem (l : List (Int × TimerRec)) (i : Int)
    (f : TimerRec → TimerRec) (h : i ∉ l.map Prod.fst) :
    updateTimer l i f = l := by
  induction l with
  | nil => rfl
  | cons p rest ih =>
    obtain ⟨j, r⟩ := p
    simp only [List.map_cons, List.mem_cons] at h
    push_neg at h
    rw [updateTimer_cons, if_neg (fun hji => h.1 hji.symm), ih h.2]

/-- A table whose entries are all paused has no running entry. -/
lemma countP_eq_zero_of_paused (l : List (Int × TimerRec))
    (h : ∀ p ∈ l, p.2.paused = true) :
    l.countP (fun p => !p.2.paused) = 0 := by
  rw [List.countP_eq_zero]
  intro p hp
  simp [h p hp]

/-- Overwriting one key with a paused record cannot increase the number of
running entries. -/
lemma countP_update_const_paused (l : List (Int × TimerRec)) (i : Int)
    (r' : TimerRec) (h : r'.paused = true) :
    (updateTimer l i fun _ => r').countP (fun p => !p.2.paused) ≤
      l.countP (fun p => !p.2.paused) := by
  induction l with
  | nil => simp [updateTimer]
  | cons p rest ih =>
    obtain ⟨j, r⟩ := p
    rw [updateTimer_cons]
    by_cases hj : j = i
    · rw [if_pos hj]
      rw [List.countP_cons, List.countP_cons]
      have := ih
      simp [h]
      omega
    · rw [if_neg hj]
      rw [List.countP_cons, List.countP_cons]
      have := ih
      omega

/-- If every entry of the table other than key `i` is paused and keys are
unique, any update of key `i` leaves at most one running entry. -/
lemma countP_update_start_le_one (l : List (Int × TimerRec)) (i : Int)
    (f : TimerRec → TimerRec) :
    (∀ p ∈ l, p.1 = i ∨ p.2.paused = true) → (l.map Prod.fst).Nodup →
    (updateTimer l i f).countP (fun p => !p.2.paused) ≤ 1 := by
  induction l with
  | nil =>
    intro _ _
    simp [updateTimer]
  | cons p rest ih =>
    intro hall hnd
    obtain ⟨j, r⟩ := p
    simp only [List.map_cons, List.nodup_cons] at hnd
    rw [updateTimer_cons]
    by_cases hj : j = i
    · subst hj
      rw [if_pos rfl]
      rw [List.countP_cons]
      have hrest : updateTimer rest j f = rest := updateTimer_not_mem rest j f hnd.1
      have hz : rest.countP (fun p => !p.2.paused) = 0 := by
        apply countP_eq_zero_of_paused
        intro p hp
        rcases hall p (List.mem_cons_of_mem _ hp) with h1 | h2
        · exact absurd (h1 ▸ List.mem_map_of_mem Prod.fst hp) hnd.1
        · exact h2
      rw [hrest, hz]
      split <;> omega
    · rw [if_neg hj]
      rw [List.countP_cons]
      have hp : r.paused = true := by
        rcases hall (j, r) (List.mem_cons_self _ _) with h1 | h2
        · exact absurd h1 hj
        · exact h2
      have := ih (fun p hp' => hall p (List.mem_cons_of_mem _ hp')) hnd.2
      simp [hp]
      omega

/-- After a disciplined `start(i)` — every other entry paused, keys unique —
at most one entry is running. -/
lemma runningCount_start_le_one (s : TimerManagerState) (i limit t : Int)
    (hall : s.step_timers.all (fun p => p.1 == i || p.2.paused) = true)
    (hnd : (s.step_timers.map Prod.fst).Nodup) :
    runningCount (start_timer s i limit t) ≤ 1 := by
  have hall' : ∀ p ∈ s.step_timers, p.1 = i ∨ p.2.paused = true := by
    intro p hp
    have := List.all_eq_true.mp hall p hp
    rcases Bool.or_eq_true_iff.mp this with h1 | h2
    · exact Or.inl (by simpa using h1)
    · exact Or.inr h2
  unfold start_timer runningCount
  cases h : lookupTimer s.step_timers i with
  | none =>
    simp only []
    rw [List.countP_append]
    have hz : s.step_timers.countP (fun p => !p.2.paused) = 0 := by
      apply countP_eq_zero_of_paused
      intro p hp
      rcases hall' p hp with h1 | h2
      · exact absurd (h1 ▸ List.mem_map_of_mem Prod.fst hp)
          ((lookupTimer_eq_none_iff _ _).mp h)
      · exact h2
    rw [hz]
    simp [List.countP_cons]
  | some r =>
    simp only []
    exact countP_update_start_le_one _ _ _ hall' hnd

/-- Stopping never increases the number of running entries. -/
lemma runningCount_stop_le (s : TimerManagerState) (i t : Int) :
    runningCount (stop_timer s i t).1 ≤ runningCount s := by
  unfold stop_timer runningCount
  cases h : lookupTimer s.step_timers i with
  | none => simp
  | some r =>
    simp only []
    by_cases hp : r.paused
    · rw [if_neg (not_not_intro hp)]
      exact countP_update_const_paused _ _ _ hp
    · rw [if_pos hp]
      exact countP_update_const_paused _ _ _ rfl

/-- Pausing never increases the number of running entries. -/
lemma runningCount_pause_le (s : TimerManagerState) (i t : Int) :
    runningCount (pause_timer s i t) ≤ runningCount s := by
  unfold pause_timer runningCount
  cases h : lookupTimer s.step_timers i with
  | none => simp
  | some r =>
    simp only []
    by_cases hp : r.paused
    · rw [if_neg (not_not_intro hp)]
    · rw [if_pos hp]
      exact countP_update_const_paused _ _ _ rfl

/-- Every Timer Engine call keeps the table's keys unique. -/
lemma nodup_applyTimerOp (s : TimerManagerState) (op : TimerOp)
    (hnd : (s.step_timers.map Prod.fst).Nodup) :
    ((applyTimerOp s op).step_timers.map Prod.fst).Nodup := by
  cases op with
  | start i limit t =>
    simp only [applyTimerOp]
    unfold start_timer
    cases h : lookupTimer s.step_timers i with
    | none =>
      simp only []
      rw [List.map_append]
      have : i ∉ s.step_timers.map Prod.fst := (lookupTimer_eq_none_iff _ _).mp h
      simp [List.nodup_append, hnd, this]
    | some r =>
      simp only []
      rw [keys_updateTimer]
      exact hnd
  | stop i t =>
    simp only [applyTimerOp]
    unfold stop_timer
    cases h : lookupTimer s.step_timers i with
    | none => simpa using hnd
    | some r =>
      simp only []
      simpa [keys_updateTimer] using hnd
  | pause i t =>
    simp only [applyTimerOp]
    unfold pause_timer
    cases h : lookupTimer s.step_timers i with
    | none => simpa using hnd
    | some r =>
      simp only []
      by_cases hp : r.paused
      · rw [if_neg (not_not_intro hp)]
        exact hnd
      · rw [if_pos hp]
        simpa [keys_updateTimer] using hnd

/-- C2 (amended): the at-most-one-running invariant holds exactly under the
explicit hand-off discipline — if the caller stops the running timer before
starting another (every `start(i)` issued while all entries other than `i`
are paused), then after any such call sequence at most one entry of the
engine's table is running.  The engine itself does not enforce this. -/
theorem C2_at_most_one_running_under_handoff (s : TimerManagerState)
    (ops : List TimerOp)
    (hnd : (s.step_timers.map Prod.fst).Nodup)
    (hrun : runningCount s ≤ 1)
    (hdisc : handoffDisciplined s ops = true) :
    runningCount (runTimerOps s ops) ≤ 1 := by
  induction ops generalizing s with
  | nil => exact hrun
  | cons op rest ih =>
    have hstep : runTimerOps s (op :: rest) = runTimerOps (applyTimerOp s op) rest := rfl
    rw [hstep]
    have hnd' := nodup_applyTimerOp s op hnd
    cases op with
    | start i limit t =>
      simp only [handoffDisciplined, Bool.and_eq_true] at hdisc
      exact ih (applyTimerOp s (.start i limit t)) hnd'
        (runningCount_start_le_one s i limit t hdisc.1 hnd) hdisc.2
    | stop i t =>
      simp only [handoffDisciplined, Bool.and_eq_true] at hdisc
      exact ih (applyTimerOp s (.stop i t)) hnd'
        (le_trans (runningCount_stop_le s i t) hrun) hdisc.2
    | pause i t =>
      simp only [handoffDisciplined, Bool.and_eq_true] at hdisc
      exact ih (applyTimerOp s (.pause i t)) hnd'
        (le_trans (runningCount_pause_le s i t) hrun) hdisc.2

/-- C2 counterexample: the claim as stated — the engine itself keeps at most
one entry running after any start/stop/pause sequence, including a `start(i)`
while another index is running — is false: `start(0)` then `start(1)` with no
intervening stop leaves two entries with `paused = False`. -/
theorem C2_counterexample_two_running :
    runningCount (runTimerOps initTimerManager
      [TimerOp.start 0 10 0, TimerOp.start 1 10 3]) = 2 ∧
    ¬ runningCount (runTimerOps initTimerManager
      [TimerOp.start 0 10 0, TimerOp.start 1 10 3]) ≤ 1 := by
  constructor <;> decide

/-- C2 witness: a disciplined concrete sequence (start 0, stop 0, start 1)
satisfies the hypotheses and ends with at most one running entry. -/
theorem C2_at_most_one_running_under_handoff_witness :
    ((initTimerManager.step_timers.map Prod.fst).Nodup ∧
     runningCount initTimerManager ≤ 1 ∧
     handoffDisciplined initTimerManager
       [TimerOp.start 0 10 0, TimerOp.stop 0 5, TimerOp.start 1 10 5] = true) ∧
    runningCount (runTimerOps initTimerManager
      [TimerOp.start 0 10 0, TimerOp.stop 0 5, TimerOp.start 1 10 5]) ≤ 1 :=
  ⟨⟨by decide, by decide, by decide⟩,
   C2_at_most_one_running_under_handoff initTimerManager
     [TimerOp.start 0 10 0, TimerOp.stop 0 5, TimerOp.start 1 10 5]
     (by decide) (by decide) (by decide)⟩

/-- Union type for Python values flowing through result submission
(`result_value: Any` — `None`, a number, or a string). -/
inductive PyValue where
  | none
  | num (q : ℚ)
  | str (s : String)
deriving DecidableEq, Repr

/-- Python truthiness of a `PyValue`: `None` is falsy, a number is falsy
exactly when it is 0, a string is falsy exactly when it is empty. -/
def PyValue.truthy : PyValue → Bool
  | .none => false
  | .num q => decide (q ≠ 0)
  | .str s => decide (s ≠ "")

/-- Truthiness of `Optional[str]` (`if checkbox_value:`): `None` and the
empty string are falsy. -/
def strTruthy : Option String → Bool
  | Option.none => false
  | some s => decide (s ≠ "")

/-- Digit-string value, for the decimal parser. -/
def digitsVal (cs : List Char) : Nat :=
  cs.foldl (fun a c => a * 10 + (c.toNat - 48)) 0

/-- Decimal parser modelling Python `float(str)` on the plain decimal strings
this application produces (optional sign, digits, optional single decimal
point); an unparsable string yields `none` (Python raises `ValueError`). -/
def parseDecimal (s : String) : Option ℚ :=
  let cs := s.toList
  let signed : ℚ × List Char :=
    match cs with
    | '-' :: rest => (-1, rest)
    | '+' :: rest => (1, rest)
    | rest => (1, rest)
  match signed.2.splitOn '.' with
  | [ip] =>
      if ip ≠ [] ∧ ip.all Char.isDigit then
        some (signed.1 * digitsVal ip)
      else Option.none
  | [ip, fp] =>
      if (ip ≠ [] ∨ fp ≠ []) ∧ ip.all Char.isDigit ∧ fp.all Char.isDigit then
        some (signed.1 * (digitsVal ip + (digitsVal fp : ℚ) / (10 : ℚ) ^ fp.length))
      else Option.none
  | _ => Option.none

/-- Python `float(value)` on a `PyValue`: `None` raises `TypeError` (here
`none`), a number converts exactly, a string is parsed. -/
def pyFloat : PyValue → Option ℚ
  | .none => Option.none
  | .num q => some q
  | .str s => parseDecimal s

/-- Validation-rules dict of a step (`input_validation`, e.g.
`\x7b"min": 0, "max": 100\x7d`); `dict.get` of an absent key is `None`. -/
structure ValidationRules where
  min : Option ℚ
  max : Option ℚ
deriving DecidableEq, Repr

/-- TestStep from `src/models/test_step.py` (lines 31–56): static definition
fields plus runtime state.  `start_time` is a Unix timestamp (integer seconds
here), `result_value` the user-entered value. -/
structure TestStep where
  step_id : Int
  name : String
  description : String
  time_limit : Int
  image_path : Option String
  input_type : InputType
  input_label : String
  input_validation : ValidationRules
  status : TestStatus
  result_value : PyValue
  actual_duration : Option Int
  start_time : Option Int
  comment : Option String
deriving DecidableEq, Repr

/-- Default step, standing in for Python's constructor defaults. -/
instance : Inhabited TestStep where
  default :=
    { step_id := 0, name := "", description := "", time_limit := 0
      image_path := Option.none, input_type := InputType.NONE
      input_label := "Test Sonucu", input_validation := ⟨Option.none, Option.none⟩
      status := TestStatus.NOT_STARTED, result_value := PyValue.none
      actual_duration := Option.none, start_time := Option.none
      comment := Option.none }

/-- `ResultManager._determine_status` from `src/managers/result_manager.py`
(lines 83–102): `None` validity (no validation, InputType.NONE) → PASSED,
`True` → PASSED, `False` → FAILED.  The `input_type` argument is accepted and
ignored, exactly as in the source. -/
def _determine_status (input_type : InputType) (is_valid : Option Bool) :
    TestStatus :=
  match is_valid with
  | Option.none => TestStatus.PASSED
  | some true => TestStatus.PASSED
  | some false => TestStatus.FAILED

/-- Events emitted by `ResultManager.save_result`. -/
inductive ResultEvent where
  | result_changed (step_index : Int) (old new : PyValue)
  | result_saved (step_index : Int) (value : PyValue) (status : String)
deriving DecidableEq, Repr

/-- `ResultManager.save_result` from `src/managers/result_manager.py`
(lines 35–81).  Chooses the final value by Python truthiness
(`if checkbox_value: … elif result_value: … else None`), writes value,
comment and duration into the step, computes the status from `is_valid`,
and emits `result_changed` (only on an actual change) and `result_saved`.
Returns (updated step, returned status, events). -/
def save_result (step : TestStep) (step_index : Int) (result_value : PyValue)
    (checkbox_value : Option String) (comment : String) (is_valid : Option Bool)
    (actual_duration : Int) : TestStep × TestStatus × List ResultEvent :=
  let old_value := step.result_value
  let final_value :=
    if strTruthy checkbox_value then PyValue.str (checkbox_value.getD "")
    else if result_value.truthy then result_value
    else PyValue.none
  let status := _determine_status step.input_type is_valid
  let step' := { step with
    result_value := final_value
    comment := some comment
    actual_duration := some actual_duration
    status := status }
  let changed : List ResultEvent :=
    if old_value ≠ final_value then [.result_changed step_index old_value final_value]
    else []
  (step', status, changed ++ [.result_saved step_index final_value status.value])

/-- `ResultManager.validate_result` from `src/managers/result_manager.py`
(lines 104–136): for NUMBER, parse with `float` (failure → `False`) and check
the inclusive min/max bounds; for PASS_FAIL, membership in the recognised
tokens; anything else is valid. -/
def validate_result (input_type : InputType) (result_value : PyValue)
    (validation_rules : ValidationRules) : Bool :=
  match input_type with
  | InputType.NUMBER =>
      match pyFloat result_value with
      | Option.none => false
      | some value =>
          if (match validation_rules.min with
              | some min_val => decide (value < min_val)
              | Option.none => false) then false
          else if (match validation_rules.max with
              | some max_val => decide (max_val < value)
              | Option.none => false) then false
          else true
  | InputType.PASS_FAIL =>
      match result_value with
      | PyValue.str s => decide (s ∈ ["PASS", "FAIL", "GEÇTİ", "KALDI"])
      | _ => false
  | _ => true

/-- Numeric step with inclusive bounds [0, 10], as in the claim's scenario. -/
def numericStep : TestStep :=
  { (default : TestStep) with
    step_id := 1
    input_type := InputType.NUMBER
    input_validation := ⟨some 0, some 10⟩ }

/-- C4: every numeric submission is claimed to be accepted with the submitted
value written into the StepRecord exactly (never discarded or replaced), with
status PASSED iff it parses into the inclusive bounds.  The status logic
holds, but the recording does not: `save_result` selects the stored value
with Python truthiness (`elif result_value:`), so the legitimate in-range
submission `0` on a `[0, 10]` numeric step is silently replaced by `None`
while the status is still computed as PASSED — the code contradicts the
documented design ("the submission is still accepted and recorded").  This
theorem evaluates the code at that failing input: validation accepts 0, the
returned status is PASSED, yet the record's value is `None`, not 0. -/
theorem C4_numeric_zero_value_discarded :
    validate_result InputType.NUMBER (PyValue.num 0) numericStep.input_validation
      = true ∧
    (save_result numericStep 0 (PyValue.num 0) Option.none "" (some true) 5).2.1
      = TestStatus.PASSED ∧
    (save_result numericStep 0 (PyValue.num 0) Option.none "" (some true) 5).1.result_value
      = PyValue.none ∧
    PyValue.none ≠ PyValue.num 0 := by
  refine ⟨by decide, by decide, by decide, by decide⟩

/-- Models `TestStep._format_timestamp` (`src/models/test_step.py` lines
81–98): rendering of the start timestamp through the external `datetime`
library.  The rendered text never flows back into `from_dict` (which does not
restore `start_time`), so the exact format is irrelevant to every claim; a
`None` timestamp renders as `None`. -/
def format_timestamp : Option Int → Option String
  | Option.none => Option.none
  | some t => some (toString t)

/-- Serialised shape emitted by `TestStep.to_dict` (`src/models/test_step.py`
lines 63–79): a dict with exactly these keys, always all present. -/
structure StepDict where
  step_id : Int
  name : String
  description : String
  time_limit : Int
  image_path : Option String
  input_type : String
  input_label : String
  input_validation : ValidationRules
  status : String
  result_value : PyValue
  actual_duration : Option Int
  start_time : Option String
  comment : Option String
deriving DecidableEq, Repr

/-- `TestStep.to_dict` (lines 63–79): enum members are serialised through
`.value`, the start timestamp through `_format_timestamp`, everything else
verbatim. -/
def TestStep.to_dict (st : TestStep) : StepDict :=
  { step_id := st.step_id
    name := st.name
    description := st.description
    time_limit := st.time_limit
    image_path := st.image_path
    input_type := st.input_type.value
    input_label := st.input_label
    input_validation := st.input_validation
    status := st.status.value
    result_value := st.result_value
    actual_duration := st.actual_duration
    start_time := format_timestamp st.start_time
    comment := st.comment }

/-- `TestStep.from_dict` (lines 100–124) on a full `to_dict`-shaped dict
(every key present, so each `if key in data` check takes its true branch):
constructs the step, decoding the enums with the Python enum constructors
(which raise — here `none` — on unrecognised strings), then restores
`status`, `result_value`, `actual_duration` and `comment`.  `start_time` is
serialised but never restored, exactly as in the source. -/
def TestStep.from_dict (d : StepDict) : Option TestStep :=
  match InputType.ofValue d.input_type, TestStatus.ofValue d.status with
  | some it, some stv =>
      some
        { step_id := d.step_id
          name := d.name
          description := d.description
          time_limit := d.time_limit
          image_path := d.image_path
          input_type := it
          input_label := d.input_label
          input_validation := d.input_validation
          status := stv
          result_value := d.result_value
          actual_duration := d.actual_duration
          start_time := Option.none
          comment := d.comment }
  | _, _ => Option.none

/-- SessionMetadata from `src/models/session_metadata.py`: a dataclass of
plain strings.  Its `to_dict`/`from_dict` pair is `asdict` and the filtered
constructor, which on full dicts is the identity on this record, so the
record itself serves as its own serialised shape. -/
structure SessionMetadata where
  stok_no : String
  opsiyonel_stok_no : String
  tanim : String
  teu_udk : String
  seri_no : String
  revizyon_261 : String
  test_donanimi_revizyon : String
  test_yazilimi_revizyon : String
  is_tipi_no : String
  kay_yazilimi_versiyon : String
  sky_yazilimi_versiyon : String
  fluke_esa620_kalibrasyon : String
  italsea_7proglcd_kalibrasyon : String
  geratech_kalibrasyon : String
  iba_magicmax_kalibrasyon : String
  iba_primus_a_kalibrasyon : String
  istasyon : String
  sip_code : String
deriving DecidableEq, Repr

/-- TestSession from `src/models/test_session.py` (lines 35–62): identifier,
header fields, optional metadata, timestamps (integer instants standing for
`datetime` values) and the owned list of StepRecords. -/
structure TestSession where
  session_id : String
  stock_number : String
  serial_number : String
  station_number : String
  sip_code : String
  metadata : Option SessionMetadata
  start_time : Option Int
  end_time : Option Int
  steps : List TestStep
deriving DecidableEq, Repr

/-- `TestSession.duration_seconds` property (lines 81–88): `None` before the
session starts; otherwise measured up to `end_time`, or up to `now` while the
session is still open. -/
def TestSession.duration_seconds (s : TestSession) (now : Int) : Option Int :=
  match s.start_time with
  | Option.none => Option.none
  | some st => some ((s.end_time.getD now) - st)

/-- `TestSession.get_completion_percentage` (lines 90–99). -/
def TestSession.get_completion_percentage (s : TestSession) : ℚ :=
  if s.steps.isEmpty then 0
  else ((s.steps.countP fun st =>
    st.status = TestStatus.PASSED ∨ st.status = TestStatus.FAILED : ℚ)
      / (s.steps.length : ℚ)) * 100

/-- `TestSession.get_passed_count` (lines 101–103). -/
def TestSession.get_passed_count (s : TestSession) : Nat :=
  s.steps.countP fun st => st.status = TestStatus.PASSED

/-- `TestSession.get_failed_count` (lines 105–107). -/
def TestSession.get_failed_count (s : TestSession) : Nat :=
  s.steps.countP fun st => st.status = TestStatus.FAILED

/-- Serialised shape emitted by `TestSession.to_dict`
(`src/models/test_session.py` lines 109–135).  The `metadata` key is present
exactly when the session has metadata, which the `Option` captures.
`datetime.isoformat` and `datetime.fromisoformat` are the external standard
library's lossless encoding of an instant; with instants embedded as
integers that encoding is carried by the `Option Int` fields directly. -/
structure SessionDict where
  session_id : String
  stock_number : String
  serial_number : String
  station_number : String
  sip_code : String
  start_time : Option Int
  end_time : Option Int
  duration_seconds : Option Int
  completion_percentage : ℚ
  passed_count : Nat
  failed_count : Nat
  steps : List StepDict
  metadata : Option SessionMetadata
deriving DecidableEq, Repr

/-- `TestSession.to_dict` (lines 109–135): header fields verbatim, derived
statistics, and every step serialised through `TestStep.to_dict`. -/
def TestSession.to_dict (s : TestSession) (now : Int) : SessionDict :=
  { session_id := s.session_id
    stock_number := s.stock_number
    serial_number := s.serial_number
    station_number := s.station_number
    sip_code := s.sip_code
    start_time := s.start_time
    end_time := s.end_time
    duration_seconds := s.duration_seconds now
    completion_percentage := s.get_completion_percentage
    passed_count := s.get_passed_count
    failed_count := s.get_failed_count
    steps := s.steps.map TestStep.to_dict
    metadata := s.metadata }

/-- Hydration of the serialised step list (`from_dict`'s list comprehension,
lines 200–203): any step that fails to decode propagates the failure. -/
def hydrate_steps : List StepDict → Option (List TestStep)
  | [] => some []
  | d :: rest =>
      match TestStep.from_dict d, hydrate_steps rest with
      | some st, some sts => some (st :: sts)
      | _, _ => Option.none

/-- `TestSession.from_dict` (lines 168–205): rebuilds the session through the
constructor — which, given metadata, takes the header fields from the
metadata record (constructor lines 46–57) — then restores id, timestamps and
the hydrated steps. -/
def TestSession.from_dict (d : SessionDict) : Option TestSession :=
  match hydrate_steps d.steps with
  | Option.none => Option.none
  | some steps' =>
      match d.metadata with
      | some m =>
          some
            { session_id := d.session_id
              stock_number := m.stok_no
              serial_number := m.seri_no
              station_number := m.istasyon
              sip_code := m.sip_code
              metadata := some m
              start_time := d.start_time
              end_time := d.end_time
              steps := steps' }
      | Option.none =>
          some
            { session_id := d.session_id
              stock_number := d.stock_number
              serial_number := d.serial_number
              station_number := d.station_number
              sip_code := d.sip_code
              metadata := Option.none
              start_time := d.start_time
              end_time := d.end_time
              steps := steps' }

/-- Decoding a serialised status recovers it. -/
lemma testStatus_ofValue_value (s : TestStatus) : TestStatus.ofValue s.value = some s := by
  cases s <;> rfl

/-- Decoding a serialised input type recovers it. -/
lemma inputType_ofValue_value (it : InputType) : InputType.ofValue it.value = some it := by
  cases it <;> rfl

/-- Round trip of one step: everything except the never-restored
`start_time` comes back unchanged. -/
lemma TestStep.from_dict_to_dict (st : TestStep) :
    TestStep.from_dict (TestStep.to_dict st) =
      some { st with start_time := Option.none } := by
  unfold TestStep.from_dict TestStep.to_dict
  rw [testStatus_ofValue_value, inputType_ofValue_value]

/-- Round trip of the serialised step list. -/
lemma hydrate_steps_map_to_dict (steps : List TestStep) :
    hydrate_steps (steps.map TestStep.to_dict) =
      some (steps.map fun st => { st with start_time := Option.none }) := by
  induction steps with
  | nil => rfl
  | cons st rest ih =>
    simp only [List.map_cons, hydrate_steps, TestStep.from_dict_to_dict, ih]

/-- C9: the snapshot round trip is lossless for status, recorded value and
actual duration — re-hydrating the StepRecords from a serialised Session
yields, for every step, exactly the original status, value and duration.
(`now` is the wall-clock instant at which the snapshot's derived
`duration_seconds` field is computed; it does not influence the steps.) -/
theorem C9_snapshot_round_trip_lossless (sess : TestSession) (now : Int) :
    (TestSession.from_dict (TestSession.to_dict sess now)).map
        (fun s' => s'.steps.map fun st =>
          (st.status, st.result_value, st.actual_duration)) =
      some (sess.steps.map fun st =>
        (st.status, st.result_value, st.actual_duration)) := by
  unfold TestSession.from_dict TestSession.to_dict
  rw [hydrate_steps_map_to_dict]
  cases hm : sess.metadata <;>
    simp only [Option.map_some', Option.some.injEq, List.map_map] <;>
    exact List.map_congr_left fun st _ => rfl

/-- Events emitted by `TestManager.navigate_to_step`
(`src/managers/test_manager.py`): the `step_changed` signal on success and
the `navigation_blocked` signal (relayed through the NavigationManager) on
rejection. -/
inductive TMEvent where
  | step_changed (index total : Int) (mode : String)
  | navigation_blocked (reason : String)
deriving DecidableEq, Repr

/-- Orchestrator state of `TestManager` (`src/managers/test_manager.py`
lines 45–65): the composed TimerManager and NavigationManager state, the
session's step records, and the current index (−1 before the test starts). -/
structure TestManagerState where
  timer : TimerManagerState
  nav_history : List NavEntry
  steps : List TestStep
  current_step_index : Int
deriving DecidableEq, Repr

/-- Lines 161–163 of `navigate_to_step`: `if self.current_step_index >= 0:
self.timer_manager.stop_timer(self.current_step_index)` (the returned elapsed
value is discarded). -/
def stoppedTimerOnLeave (s : TestManagerState) (now : Int) : TimerManagerState :=
  if 0 ≤ s.current_step_index then (stop_timer s.timer s.current_step_index now).1
  else s.timer

/-- Lines 173–177 of `navigate_to_step`: a NOT_STARTED target step becomes
IN_PROGRESS with its wall-clock start timestamp set; any other status leaves
the step record untouched. -/
def enteredStep (step : TestStep) (now : Int) : TestStep :=
  if step.status = TestStatus.NOT_STARTED then
    { step with status := TestStatus.IN_PROGRESS, start_time := some now }
  else step

/-- `TestManager.navigate_to_step` from `src/managers/test_manager.py`
(lines 137–190).  On rejection by `can_navigate_to`: emit
`navigation_blocked(reason)` and return with no state change.  On success:
stop the current timer and record the navigation (both only when a current
index exists), update the index, promote a NOT_STARTED target step to
IN_PROGRESS, emit `step_changed(target, total, mode.value)`, and start the
target's timer only in NORMAL mode.  The target indexing
`self.steps[target_index]` is embedded with `getD`: a successful
`can_navigate_to` guarantees `0 ≤ target < len(steps)`, so the default is
never read (out of range Python would raise, but that branch is
unreachable). -/
def navigate_to_step (s : TestManagerState) (target_index : Int)
    (mode : NavigationMode) (user_role : Option String) (now : Int) :
    TestManagerState × List TMEvent :=
  let res := can_navigate_to s.current_step_index target_index
    (s.steps.length : Int) user_role
  if res.1 = false then
    (s, [TMEvent.navigation_blocked res.2])
  else
    let target_step' := enteredStep (s.steps.getD target_index.toNat default) now
    ({ timer :=
        if mode = NavigationMode.NORMAL then
          start_timer (stoppedTimerOnLeave s now) target_index
            target_step'.time_limit now
        else stoppedTimerOnLeave s now
       nav_history :=
        if 0 ≤ s.current_step_index then
          record_navigation s.nav_history s.current_step_index target_index now
        else s.nav_history
       steps := s.steps.set target_index.toNat target_step'
       current_step_index := target_index },
     [TMEvent.step_changed target_index (s.steps.length : Int) mode.value])

/-- Characterisation of a granted navigation request: target in range,
different from the current index, and — when moving backward — the admin
role. -/
lemma can_navigate_to_fst_true_iff (c t total : Int) (role : Option String) :
    (can_navigate_to c t total role).1 = true ↔
      (0 ≤ t ∧ t < total ∧ t ≠ c ∧
        (t < c → role = some UserRole.ADMIN)) := by
  unfold can_navigate_to
  split_ifs with h1 h2 h3 h4
  · simp only [Bool.false_eq_true, false_iff]
    intro hc
    rcases h1 with h | h
    · omega
    · omega
  · push_neg at h1
    simp only [Bool.false_eq_true, false_iff]
    intro hc
    exact hc.2.2.1 h2
  · push_neg at h1
    simp only [true_iff]
    exact ⟨h1.1, h1.2, fun hc => absurd hc h2, fun _ => h4⟩
  · simp only [Bool.false_eq_true, false_iff]
    intro hc
    exact h4 (hc.2.2.2 h3)
  · push_neg at h1 h3
    simp only [true_iff]
    exact ⟨h1.1, h1.2, fun hc => absurd hc h2, fun hlt => absurd hlt (not_lt.mpr h3)⟩

/-- A rejected call leaves the orchestrator untouched and reports the exact
reason. -/
lemma navigate_to_step_blocked (s : TestManagerState) (t : Int)
    (mode : NavigationMode) (role : Option String) (now : Int)
    (h : (can_navigate_to s.current_step_index t (s.steps.length : Int) role).1
      = false) :
    navigate_to_step s t mode role now =
      (s, [TMEvent.navigation_blocked
        (can_navigate_to s.current_step_index t (s.steps.length : Int) role).2]) := by
  simp [navigate_to_step, h]

/-- A granted call produces exactly the success-branch state and event. -/
lemma navigate_to_step_success (s : TestManagerState) (t : Int)
    (mode : NavigationMode) (role : Option String) (now : Int)
    (h : (can_navigate_to s.current_step_index t (s.steps.length : Int) role).1
      = true) :
    navigate_to_step s t mode role now =
      ({ timer :=
          if mode = NavigationMode.NORMAL then
            start_timer (stoppedTimerOnLeave s now) t
              (enteredStep (s.steps.getD t.toNat default) now).time_limit now
          else stoppedTimerOnLeave s now
         nav_history :=
          if 0 ≤ s.current_step_index then
            record_navigation s.nav_history s.current_step_index t now
          else s.nav_history
         steps := s.steps.set t.toNat (enteredStep (s.steps.getD t.toNat default) now)
         current_step_index := t },
       [TMEvent.step_changed t (s.steps.length : Int) mode.value]) := by
  simp [navigate_to_step, h]

/-- Appending a fresh key at the end of the table makes it found. -/
lemma lookupTimer_append_self (l : List (Int × TimerRec)) (i : Int) (r : TimerRec)
    (h : lookupTimer l i = none) : lookupTimer (l ++ [(i, r)]) i = some r := by
  induction l with
  | nil => simp [lookupTimer]
  | cons p rest ih =>
    obtain ⟨j, r'⟩ := p
    rw [List.cons_append]
    simp only [lookupTimer] at h ⊢
    by_cases hj : j = i
    · rw [if_pos hj] at h
      exact absurd h (by simp)
    · rw [if_neg hj] at h ⊢
      exact ih h

/-- After `start_timer(i)` the table holds a running record for `i` and `i`
is the active index. -/
lemma start_timer_lookup_self (s : TimerManagerState) (i limit t : Int) :
    ∃ r, lookupTimer (start_timer s i limit t).step_timers i = some r ∧
      r.paused = false ∧ (start_timer s i limit t).active_step_index = some i := by
  unfold start_timer
  cases h : lookupTimer s.step_timers i with
  | none => exact ⟨⟨t, 0, false, limit⟩, lookupTimer_append_self _ _ _ h, rfl, rfl⟩
  | some r =>
    refine ⟨{ r with start_time := t, paused := false, limit := limit }, ?_, rfl, rfl⟩
    rw [lookupTimer_updateTimer_self, h]
    rfl

/-- Stopping one index leaves every other index's record untouched. -/
lemma lookupTimer_stop_ne (s : TimerManagerState) (i t k : Int) (h : k ≠ i) :
    lookupTimer (stop_timer s i t).1.step_timers k = lookupTimer s.step_timers k := by
  unfold stop_timer
  cases hl : lookupTimer s.step_timers i with
  | none => rfl
  | some r =>
    simp only []
    exact lookupTimer_updateTimer_ne _ _ _ _ h

/-- Leaving the current step touches no other index's timer record. -/
lemma lookupTimer_stoppedTimerOnLeave (s : TestManagerState) (now k : Int)
    (h : k ≠ s.current_step_index) :
    lookupTimer (stoppedTimerOnLeave s now).step_timers k =
      lookupTimer s.timer.step_timers k := by
  unfold stoppedTimerOnLeave
  split_ifs with hc
  · exact lookupTimer_stop_ne _ _ _ _ h
  · rfl

/-- C7: every call rejected by the Navigation Authority (invalid index,
same-index target, or insufficient role) makes the Orchestrator report the
reason through the navigation-blocked notification and change nothing: the
entire state — current index, timers, history, step records — is returned
unmodified. -/
theorem C7_rejected_navigation_changes_nothing (s : TestManagerState) (t : Int)
    (mode : NavigationMode) (role : Option String) (now : Int)
    (h : (can_navigate_to s.current_step_index t (s.steps.length : Int) role).1
      = false) :
    navigate_to_step s t mode role now =
      (s, [TMEvent.navigation_blocked
        (can_navigate_to s.current_step_index t (s.steps.length : Int) role).2]) :=
  navigate_to_step_blocked s t mode role now h

/-- Sample fresh step records for concrete runs. -/
def sampleStep0 : TestStep := { (default : TestStep) with step_id := 1, time_limit := 10 }

/-- Second sample step (fresh, NOT_STARTED). -/
def sampleStep1 : TestStep := { (default : TestStep) with step_id := 2, time_limit := 10 }

/-- Orchestrator state of a freshly started two-step session: current index 0,
no history, no timers yet. -/
def sampleTM : TestManagerState :=
  { timer := initTimerManager
    nav_history := []
    steps := [sampleStep0, sampleStep1]
    current_step_index := 0 }

/-- C7 witness: navigating to the index one is already at is rejected and the
state comes back identical. -/
theorem C7_rejected_navigation_changes_nothing_witness :
    (can_navigate_to sampleTM.current_step_index 0
      (sampleTM.steps.length : Int) Option.none).1 = false ∧
    navigate_to_step sampleTM 0 NavigationMode.NORMAL Option.none 7 =
      (sampleTM, [TMEvent.navigation_blocked
        (can_navigate_to sampleTM.current_step_index 0
          (sampleTM.steps.length : Int) Option.none).2]) :=
  ⟨by decide,
   C7_rejected_navigation_changes_nothing sampleTM 0 NavigationMode.NORMAL
     Option.none 7 (by decide)⟩

/-- C3 (amended): for every successful `navigateTo` call the mode that takes
effect is the caller-supplied mode hint — `navigate_to_step` never consults
`determine_navigation_mode`.  The step-changed notification carries the
passed mode, and the target's timer is started (running record, active
index) if and only if the *passed* mode is NORMAL; in any other mode the
target's timer record is exactly what it was before the call. -/
theorem C3_effective_mode_is_caller_hint (s : TestManagerState) (t : Int)
    (mode : NavigationMode) (role : Option String) (now : Int)
    (h : (can_navigate_to s.current_step_index t (s.steps.length : Int) role).1
      = true) :
    (navigate_to_step s t mode role now).2 =
      [TMEvent.step_changed t (s.steps.length : Int) mode.value] ∧
    (mode = NavigationMode.NORMAL →
      ∃ r, lookupTimer (navigate_to_step s t mode role now).1.timer.step_timers t
          = some r ∧ r.paused = false ∧
        (navigate_to_step s t mode role now).1.timer.active_step_index = some t) ∧
    (mode ≠ NavigationMode.NORMAL →
      lookupTimer (navigate_to_step s t mode role now).1.timer.step_timers t =
        lookupTimer s.timer.step_timers t) := by
  rw [navigate_to_step_success s t mode role now h]
  refine ⟨rfl, ?_, ?_⟩
  · intro hm
    subst hm
    simp only [if_pos rfl]
    exact start_timer_lookup_self _ _ _ _
  · intro hm
    simp only [if_neg hm]
    exact lookupTimer_stoppedTimerOnLeave s now t
      ((can_navigate_to_fst_true_iff _ _ _ _).mp h).2.2.1

/-- C3 counterexample: the claim — the effective mode always equals
`determineMode(currentIndex, targetIndex, targetStatus)` and the timer starts
iff that resolved mode is NORMAL — is false on the code.  From the freshly
started two-step session, `navigate_to_step(1, VIEW_ONLY)` (exactly the call
the main window issues for sidebar clicks) succeeds as a forward move:
`determine_navigation_mode(0, 1, NOT_STARTED)` resolves NORMAL, yet the
notification carries "view_only" and no timer is started for the target. -/
theorem C3_viewonly_forward_counterexample :
    (can_navigate_to sampleTM.current_step_index 1
      (sampleTM.steps.length : Int) Option.none).1 = true ∧
    determine_navigation_mode sampleTM.current_step_index 1
      (sampleTM.steps.getD (1 : Int).toNat default).status = NavigationMode.NORMAL ∧
    (navigate_to_step sampleTM 1 NavigationMode.VIEW_ONLY Option.none 5).2 =
      [TMEvent.step_changed 1 2 "view_only"] ∧
    lookupTimer (navigate_to_step sampleTM 1 NavigationMode.VIEW_ONLY
      Option.none 5).1.timer.step_timers 1 = Option.none := by
  refine ⟨by decide, by decide, by decide, by decide⟩

/-- C3 witness: the amended theorem applied to the concrete NORMAL-mode call
`navigate_to_step(1, NORMAL)` on the freshly started two-step session. -/
theorem C3_effective_mode_is_caller_hint_witness :
    (can_navigate_to sampleTM.current_step_index 1
      (sampleTM.steps.length : Int) Option.none).1 = true ∧
    ((navigate_to_step sampleTM 1 NavigationMode.NORMAL Option.none 5).2 =
      [TMEvent.step_changed 1 (sampleTM.steps.length : Int)
        NavigationMode.NORMAL.value] ∧
    (NavigationMode.NORMAL = NavigationMode.NORMAL →
      ∃ r, lookupTimer (navigate_to_step sampleTM 1 NavigationMode.NORMAL
          Option.none 5).1.timer.step_timers 1 = some r ∧ r.paused = false ∧
        (navigate_to_step sampleTM 1 NavigationMode.NORMAL
          Option.none 5).1.timer.active_step_index = some 1) ∧
    (NavigationMode.NORMAL ≠ NavigationMode.NORMAL →
      lookupTimer (navigate_to_step sampleTM 1 NavigationMode.NORMAL
          Option.none 5).1.timer.step_timers 1 =
        lookupTimer sampleTM.timer.step_timers 1)) :=
  ⟨by decide,
   C3_effective_mode_is_caller_hint sampleTM 1 NavigationMode.NORMAL
     Option.none 5 (by decide)⟩

/-- Setting back the element already at an index is a no-op. -/
lemma list_set_get?_self {α : Type _} (l : List α) (n : Nat) (x : α)
    (h : l.get? n = some x) : l.set n x = l := by
  induction l generalizing n with
  | nil => cases h
  | cons a rest ih =>
    cases n with
    | zero =>
      simp only [List.get?] at h
      cases h
      rfl
    | succ m =>
      simp only [List.get?] at h
      simp only [List.set]
      rw [ih m h]

/-- `getD` agrees with a successful `get?`. -/
lemma list_getD_of_get? {α : Type _} [Inhabited α] (l : List α) (n : Nat) (x : α)
    (h : l.get? n = some x) : l.getD n default = x := by
  induction l generalizing n with
  | nil => cases h
  | cons a rest ih =>
    cases n with
    | zero =>
      simp only [List.get?] at h
      cases h
      rfl
    | succ m =>
      simp only [List.get?] at h
      simp only [List.getD]
      exact ih m h

/-- C10: the only step-record effect of a successful navigation, in every
mode including VIEW_ONLY, is on the target step and only when it is
NOT_STARTED — it becomes IN_PROGRESS with its wall-clock start timestamp set;
a target in any other status leaves the whole step list (all statuses,
values, comments, start timestamps and durations) unchanged.  The current
index becomes the target in both cases. -/
theorem C10_navigation_step_record_effect (s : TestManagerState) (t : Int)
    (mode : NavigationMode) (role : Option String) (now : Int) (tstep : TestStep)
    (hsucc : (can_navigate_to s.current_step_index t (s.steps.length : Int) role).1
      = true)
    (hget : s.steps.get? t.toNat = some tstep) :
    (navigate_to_step s t mode role now).1.current_step_index = t ∧
    (tstep.status = TestStatus.NOT_STARTED →
      (navigate_to_step s t mode role now).1.steps =
        s.steps.set t.toNat
          { tstep with status := TestStatus.IN_PROGRESS, start_time := some now }) ∧
    (tstep.status ≠ TestStatus.NOT_STARTED →
      (navigate_to_step s t mode role now).1.steps = s.steps) := by
  rw [navigate_to_step_success s t mode role now hsucc]
  have hD : s.steps.getD t.toNat default = tstep := list_getD_of_get? _ _ _ hget
  refine ⟨rfl, ?_, ?_⟩
  · intro hns
    simp only [enteredStep, hD, if_pos hns]
  · intro hns
    simp only [enteredStep, hD, if_neg hns]
    exact list_set_get?_self _ _ _ hget

/-- C10 witness: the VIEW_ONLY navigation to the fresh step 1 of the two-step
session sets it IN_PROGRESS with its start timestamp and moves the index. -/
theorem C10_navigation_step_record_effect_witness :
    ((can_navigate_to sampleTM.current_step_index 1
        (sampleTM.steps.length : Int) Option.none).1 = true ∧
      sampleTM.steps.get? (1 : Int).toNat = some sampleStep1) ∧
    ((navigate_to_step sampleTM 1 NavigationMode.VIEW_ONLY Option.none 5).1.current_step_index
        = 1 ∧
    (sampleStep1.status = TestStatus.NOT_STARTED →
      (navigate_to_step sampleTM 1 NavigationMode.VIEW_ONLY Option.none 5).1.steps =
        sampleTM.steps.set (1 : Int).toNat
          { sampleStep1 with status := TestStatus.IN_PROGRESS, start_time := some 5 }) ∧
    (sampleStep1.status ≠ TestStatus.NOT_STARTED →
      (navigate_to_step sampleTM 1 NavigationMode.VIEW_ONLY Option.none 5).1.steps =
        sampleTM.steps)) :=
  ⟨⟨by decide, rfl⟩,
   C10_navigation_step_record_effect sampleTM 1 NavigationMode.VIEW_ONLY
     Option.none 5 sampleStep1 (by decide) rfl⟩

/-- One `navigateTo` request issued by a caller of the Orchestrator. -/
structure NavCall where
  target : Int
  mode : NavigationMode
  role : Option String
  now : Int
deriving DecidableEq, Repr

/-- Effect of a sequence of `navigate_to_step` calls on the orchestrator. -/
def runNavCalls (s : TestManagerState) : List NavCall → TestManagerState
  | [] => s
  | c :: rest => runNavCalls (navigate_to_step s c.target c.mode c.role c.now).1 rest

/-- The (from, to) pairs of the successful calls of a sequence, in call
order: `from` is the orchestrator's current index at the moment of the call,
`to` the requested target. -/
def collectNavPairs (s : TestManagerState) : List NavCall → List (Int × Int)
  | [] => []
  | c :: rest =>
      if (can_navigate_to s.current_step_index c.target
          (s.steps.length : Int) c.role).1 = true then
        (s.current_step_index, c.target) ::
          collectNavPairs (navigate_to_step s c.target c.mode c.role c.now).1 rest
      else
        collectNavPairs (navigate_to_step s c.target c.mode c.role c.now).1 rest

/-- A granted call with a current index appends exactly its (from, to,
timestamp) entry to the history. -/
lemma nav_success_history (s : TestManagerState) (t : Int) (mode : NavigationMode)
    (role : Option String) (now : Int)
    (h0 : 0 ≤ s.current_step_index)
    (h : (can_navigate_to s.current_step_index t (s.steps.length : Int) role).1
      = true) :
    (navigate_to_step s t mode role now).1.nav_history =
      s.nav_history ++ [⟨s.current_step_index, t, now⟩] := by
  rw [navigate_to_step_success s t mode role now h]
  simp only [if_pos h0]
  rfl

/-- A granted call moves the current index to the target. -/
lemma nav_success_current (s : TestManagerState) (t : Int) (mode : NavigationMode)
    (role : Option String) (now : Int)
    (h : (can_navigate_to s.current_step_index t (s.steps.length : Int) role).1
      = true) :
    (navigate_to_step s t mode role now).1.current_step_index = t := by
  rw [navigate_to_step_success s t mode role now h]

/-- C6: starting from a freshly started session (a current index exists),
after any sequence of `navigateTo` calls the Navigation Authority's history
— projected to its (from, to) pairs — is exactly the original history with
the pair of every successful call appended, in call order: one entry per
successful call, holding the exact (from, to) of that call, never mutated or
removed.  With N successful calls the history thus has exactly N new
entries. -/
theorem C6_history_exact_per_successful_call (s : TestManagerState)
    (calls : List NavCall) (h0 : 0 ≤ s.current_step_index) :
    (runNavCalls s calls).nav_history.map (fun e => (e.src, e.dst)) =
      s.nav_history.map (fun e => (e.src, e.dst)) ++ collectNavPairs s calls := by
  induction calls generalizing s with
  | nil => simp [runNavCalls, collectNavPairs]
  | cons c rest ih =>
    show (runNavCalls (navigate_to_step s c.target c.mode c.role c.now).1
        rest).nav_history.map (fun e => (e.src, e.dst)) = _
    by_cases hc : (can_navigate_to s.current_step_index c.target
        (s.steps.length : Int) c.role).1 = true
    · have h0' : 0 ≤ (navigate_to_step s c.target c.mode c.role c.now).1.current_step_index := by
        rw [nav_success_current s c.target c.mode c.role c.now hc]
        exact ((can_navigate_to_fst_true_iff _ _ _ _).mp hc).1
      rw [ih _ h0']
      rw [nav_success_history s c.target c.mode c.role c.now h0 hc]
      simp only [collectNavPairs, if_pos hc, List.map_append]
      simp [List.append_assoc]
    · have hfalse : (can_navigate_to s.current_step_index c.target
          (s.steps.length : Int) c.role).1 = false := by
        simpa using hc
      have hb : (navigate_to_step s c.target c.mode c.role c.now).1 = s := by
        rw [navigate_to_step_blocked s c.target c.mode c.role c.now hfalse]
      rw [hb, ih s h0]
      simp only [collectNavPairs, if_neg hc, hb]

/-- C6 witness: from the freshly started two-step session, a forward call and
an admin backward call both succeed and leave exactly their (from, to) pairs,
in order. -/
theorem C6_history_exact_per_successful_call_witness :
    (0 : Int) ≤ sampleTM.current_step_index ∧
    (runNavCalls sampleTM
        [⟨1, NavigationMode.NORMAL, Option.none, 5⟩,
         ⟨0, NavigationMode.VIEW_ONLY, some UserRole.ADMIN, 6⟩]).nav_history.map
        (fun e => (e.src, e.dst)) =
      sampleTM.nav_history.map (fun e => (e.src, e.dst)) ++
        collectNavPairs sampleTM
          [⟨1, NavigationMode.NORMAL, Option.none, 5⟩,
           ⟨0, NavigationMode.VIEW_ONLY, some UserRole.ADMIN, 6⟩] :=
  ⟨by decide,
   C6_history_exact_per_successful_call sampleTM
     [⟨1, NavigationMode.NORMAL, Option.none, 5⟩,
      ⟨0, NavigationMode.VIEW_ONLY, some UserRole.ADMIN, 6⟩] (by decide)⟩
